/-
  Verification of DC_Bike_Rental_Streamlit.py (a single-file Streamlit
  dashboard over the DC bike-rental CSV).

  The script is shallowly embedded: the dataframe is a list of rows,
  column assignments in `load_data` become row-wise field computations,
  pandas `isin`-based masking becomes `List.filter`, `groupby/agg`
  becomes grouping by first occurrence of the key with rational means.
  Floating-point arithmetic is modelled over ℚ, except the sample
  standard deviation and the `** 0.5` power of the 95%-CI lines, which
  are modelled over ℝ (`Real.sqrt`, real `rpow`).
-/
import Mathlib

namespace BikeRental

/-- A parsed timestamp as pandas exposes it through the `.dt` accessors
used by the script (`year`, `month`, `day`, `hour`, `dayofweek`).
`pd.to_datetime` parsing itself is library code; the CSV `datetime`
cell is modelled as the already-structured timestamp value. -/
structure DateTime where
  year : Int
  month : Int
  day : Int
  hour : Int
  dayofweek : Int
deriving DecidableEq, Repr

/-- One row of `train.csv` with the fixed column set
(datetime, season, holiday, workingday, weather, temp, atemp,
humidity, windspeed, casual, registered, count). -/
structure RawRow where
  datetime : DateTime
  season : Int
  holiday : Int
  workingday : Int
  weather : Int
  temp : Rat
  atemp : Rat
  humidity : Rat
  windspeed : Rat
  casual : Int
  registered : Int
  count : Int
deriving DecidableEq, Repr

/-- Function `get_period` from `load_data` (source lines 27-35): bucket an hour
value into Night / Morning / Afternoon / Evening. The chained Python
comparisons `a <= h < b` are the conjunctions written here; the final
`else` catches everything outside `[0,18)`. -/
def get_period (h : Int) : String :=
  if 0 ≤ h ∧ h < 6 then "Night"
  else if 6 ≤ h ∧ h < 12 then "Morning"
  else if 12 ≤ h ∧ h < 18 then "Afternoon"
  else "Evening"

/-- Mapping `season_map = \x7b1:"Spring", 2:"Summer", 3:"Fall", 4:"Winter"\x7d`
(source line 23). `Series.map` on a dict yields NaN for keys outside
the dict, modelled by `Option`. -/
def season_map (c : Int) : Option String :=
  if c = 1 then some "Spring"
  else if c = 2 then some "Summer"
  else if c = 3 then some "Fall"
  else if c = 4 then some "Winter"
  else none

/-- A row after `load_data` ran: every original column plus the derived
columns `year, month, day, hour, dayofweek, season_name, day_period`
added on source lines 16-37. -/
structure LoadedRow where
  datetime : DateTime
  season : Int
  holiday : Int
  workingday : Int
  weather : Int
  temp : Rat
  atemp : Rat
  humidity : Rat
  windspeed : Rat
  casual : Int
  registered : Int
  count : Int
  year : Int
  month : Int
  day : Int
  hour : Int
  dayofweek : Int
  season_name : Option String
  day_period : String
deriving DecidableEq, Repr

/-- The row-wise effect of the column assignments in `load_data`
(source lines 15-37): original columns are carried through, the `.dt`
accessor columns are projected from the parsed datetime,
`season_name` is `season_map` of the season code, and `day_period`
is `get_period` of the derived hour column. -/
def load_row (r : RawRow) : LoadedRow :=
  { datetime := r.datetime
    season := r.season
    holiday := r.holiday
    workingday := r.workingday
    weather := r.weather
    temp := r.temp
    atemp := r.atemp
    humidity := r.humidity
    windspeed := r.windspeed
    casual := r.casual
    registered := r.registered
    count := r.count
    year := r.datetime.year
    month := r.datetime.month
    day := r.datetime.day
    hour := r.datetime.hour
    dayofweek := r.datetime.dayofweek
    season_name := season_map r.season
    day_period := get_period r.datetime.hour }

/-- Function `load_data` applied to a successfully read CSV: the column
assignments act row-wise, so the dataframe maps through `load_row`. -/
def load_data (df : List RawRow) : List LoadedRow :=
  df.map load_row

/-! ## Error model of the script prologue -/

/-- A Python exception relevant to the script: `pd.read_csv` raises
`FileNotFoundError` when `train.csv` is absent; any other exception is
collapsed into `other`. -/
inductive PyError where
  | fileNotFound
  | other (what : String)
deriving DecidableEq, Repr

/-- Call `pd.read_csv ("train.csv")` (source line 14): the input file either
exists and parses to its rows, or is absent, in which case the library
raises `FileNotFoundError`. -/
def read_csv (file : Option (List RawRow)) : Except PyError (List RawRow) :=
  match file with
  | none => Except.error PyError.fileNotFound
  | some rows => Except.ok rows

/-- What a page render attempt ends as: a rendered page carrying the
loaded dataframe, an uncaught exception aborting the render, or a
user-visible error message deliberately shown in place of the page.
The source contains no `try`/`except` and no `st.error`/`st.stop`,
so only the first two are reachable. -/
inductive RenderOutcome where
  | page (df : List LoadedRow)
  | uncaught (e : PyError)
  | message (msg : String)
deriving DecidableEq, Repr

/-- The script prologue `df = load_data()` (source lines 12-40): the
body of `load_data` calls `read_csv` directly with no exception
handler, so a read error propagates out of the function and out of
the top level, aborting the render; on success the page is rendered
with the derived-column dataframe. -/
def run_script (file : Option (List RawRow)) : RenderOutcome :=
  match read_csv file with
  | Except.error e => RenderOutcome.uncaught e
  | Except.ok rows => RenderOutcome.page (load_data rows)

/-- Observer: did a render attempt end in a user-visible error message
(rather than a page or an uncaught exception)? -/
def RenderOutcome.isMessage : RenderOutcome → Bool
  | RenderOutcome.message _ => true
  | _ => false

/-! ## Sidebar filters -/

/-- A sidebar input widget kind offered by the dashboard framework. -/
inductive Widget where
  | multiselect (label : String)
  | slider (label : String)
deriving DecidableEq, Repr

/-- The sidebar filter widgets the script creates, in source order
(lines 46-47): two `st.sidebar.multiselect` calls and nothing else —
in particular no `st.sidebar.slider`. -/
def sidebar_widgets : List Widget :=
  [Widget.multiselect "Select Year", Widget.multiselect "Select Season"]

/-- Observer: is the widget a slider? -/
def Widget.isSlider : Widget → Bool
  | Widget.slider _ => true
  | _ => false

/-- The boolean mask of source line 49:
`(df["year"].isin(year_filter)) & (df["season_name"].isin(season_filter))`. -/
def filter_pred (year_filter : List Int) (season_filter : List (Option String))
    (r : LoadedRow) : Bool :=
  year_filter.contains r.year && season_filter.contains r.season_name

/-- Selection `df_filtered` (source line 49): boolean-mask selection keeps, in
order, exactly the rows whose mask is true. -/
def df_filtered (df : List LoadedRow) (year_filter : List Int)
    (season_filter : List (Option String)) : List LoadedRow :=
  df.filter (filter_pred year_filter season_filter)

/-- The rows the mask of line 49 rejects (the complement of
`df_filtered` inside `df`). -/
def df_complement (df : List LoadedRow) (year_filter : List Int)
    (season_filter : List (Option String)) : List LoadedRow :=
  df.filter (fun r => !(filter_pred year_filter season_filter r))

/-! ## Group-by aggregation

`groupby(key)["count"]` partitions the rows by key value; the key set
is modelled by `dedup` of the key column (pandas sorts the keys, but
none of the properties below depend on the order of the groups). -/

/-- The distinct key values occurring in a dataframe. -/
def group_keys {K : Type} [DecidableEq K] (df : List LoadedRow)
    (key : LoadedRow → K) : List K :=
  (df.map key).dedup

/-- The `count`-column values of the group of rows whose key is `k`. -/
def group_vals {K : Type} [DecidableEq K] (df : List LoadedRow)
    (key : LoadedRow → K) (k : K) : List Int :=
  (df.filter (fun r => decide (key r = k))).map LoadedRow.count

/-- Arithmetic mean of a list of integer counts, as a rational. -/
def mean_q (xs : List Int) : Rat :=
  ((xs.sum : Int) : Rat) / (xs.length : Rat)

/-- Aggregation `groupby(key)["count"].mean()`: one (key, mean) pair per group. -/
def groupby_mean {K : Type} [DecidableEq K] (df : List LoadedRow)
    (key : LoadedRow → K) : List (K × Rat) :=
  (group_keys df key).map (fun k => (k, mean_q (group_vals df key k)))

/-- Sample variance with pandas' default `ddof = 1`:
sum of squared deviations over `n - 1`.  (For a one-element group the
rational convention `x / 0 = 0` stands in for pandas' NaN.) -/
def var_samp (xs : List Int) : Rat :=
  (xs.map (fun x => ((x : Rat) - mean_q xs) ^ 2)).sum / ((xs.length : Rat) - 1)

/-- Sample standard deviation, the `"std"` aggregate of pandas. -/
noncomputable def std_samp (xs : List Int) : Real :=
  Real.sqrt ((var_samp xs : Rat) : Real)

/-- Aggregation `groupby(key)["count"].agg(["mean", "std", "count"])`: one
(key, mean, std, size) tuple per group. -/
noncomputable def agg_mean_std_count {K : Type} [DecidableEq K]
    (df : List LoadedRow) (key : LoadedRow → K) :
    List (K × Rat × Real × Nat) :=
  (group_keys df key).map (fun k =>
    (k, mean_q (group_vals df key k), std_samp (group_vals df key k),
      (group_vals df key k).length))

/-- The `ci95` column assignment of source lines 135 and 213:
`1.96 * (stats["std"] / stats["count"]**0.5)`, appended row-wise to the
aggregate table.  `** 0.5` is the real power with exponent `0.5`. -/
noncomputable def add_ci95 {K : Type}
    (stats : List (K × Rat × Real × Nat)) :
    List (K × Rat × Real × Nat × Real) :=
  stats.map (fun t =>
    (t.1, t.2.1, t.2.2.1, t.2.2.2,
      1.96 * (t.2.2.1 / (t.2.2.2 : Real) ^ ((0.5 : Real)))))

/-! ## The data each aggregate chart plots

Each definition is the aggregation exactly as the source computes it,
as a function of the loaded dataframe and the two sidebar selections.
Charts built from `df_filtered` receive the filtered rows; the
2011-vs-2012 panels (source lines 113-114) and the seasonal panels
(source line 197) read the unfiltered `df`, so their definitions
ignore the selections. -/

/-- Chart data `mean_working` (source line 84): mean count by working-day flag,
over the filtered rows. -/
def mean_working_data (df : List LoadedRow) (ys : List Int)
    (ss : List (Option String)) : List (Int × Rat) :=
  groupby_mean (df_filtered df ys ss) (fun r => r.workingday)

/-- Chart data `month_mean` (source line 99): mean count by month, over the
filtered rows. -/
def month_mean_data (df : List LoadedRow) (ys : List Int)
    (ss : List (Option String)) : List (Int × Rat) :=
  groupby_mean (df_filtered df ys ss) (fun r => r.month)

/-- Chart data `df_2011` (source line 113): mean count by month over the rows of
year 2011 of the UNFILTERED dataframe `df`; the sidebar selections do
not enter the computation. -/
def chart_2011_data (df : List LoadedRow) (ys : List Int)
    (ss : List (Option String)) : List (Int × Rat) :=
  groupby_mean (df.filter (fun r => decide (r.year = 2011))) (fun r => r.month)

/-- Chart data `df_2012` (source line 114): as `chart_2011_data` for year 2012. -/
def chart_2012_data (df : List LoadedRow) (ys : List Int)
    (ss : List (Option String)) : List (Int × Rat) :=
  groupby_mean (df.filter (fun r => decide (r.year = 2012))) (fun r => r.month)

/-- Table `weather_stats` with its `ci95` column (source lines 134-135),
over the filtered rows. -/
noncomputable def weather_stats_tab (df : List LoadedRow) (ys : List Int)
    (ss : List (Option String)) : List (Int × Rat × Real × Nat × Real) :=
  add_ci95 (agg_mean_std_count (df_filtered df ys ss) (fun r => r.weather))

/-- Chart data `hour_mean` (source line 152): mean count by hour, over the
filtered rows. -/
def hour_mean_data (df : List LoadedRow) (ys : List Int)
    (ss : List (Option String)) : List (Int × Rat) :=
  groupby_mean (df_filtered df ys ss) (fun r => r.hour)

/-- The day-of-week line `d` of source line 173: mean count by hour
over the filtered rows whose `dayofweek` is `d`. -/
def dayofweek_line_data (df : List LoadedRow) (ys : List Int)
    (ss : List (Option String)) (d : Int) : List (Int × Rat) :=
  groupby_mean ((df_filtered df ys ss).filter (fun r => decide (r.dayofweek = d)))
    (fun r => r.hour)

/-- Chart data `subset` for one season panel (source line 197): mean count by
hour over the rows of the UNFILTERED dataframe `df` whose season name
is `s`; the sidebar selections do not enter the computation. -/
def season_panel_data (df : List LoadedRow) (ys : List Int)
    (ss : List (Option String)) (s : Option String) : List (Int × Rat) :=
  groupby_mean (df.filter (fun r => decide (r.season_name = s))) (fun r => r.hour)

/-- Table `period_stats` with its `ci95` column (source lines 212-213),
over the filtered rows. -/
noncomputable def period_stats_tab (df : List LoadedRow) (ys : List Int)
    (ss : List (Option String)) : List (String × Rat × Real × Nat × Real) :=
  add_ci95 (agg_mean_std_count (df_filtered df ys ss) (fun r => r.day_period))

/-! ## The seasonal 2-by-2 panel loop (source lines 188-200) -/

/-- One iteration body of the panel loop: if `pos` has reached the end
of the season list the loop `break`s (no panel, `pos` unchanged),
otherwise `seasons[pos]` is read — under the guard, so the index is in
bounds — a panel is plotted for it and `pos` is incremented. -/
def panel_step (seasons : List (Option String)) (pos : Nat) :
    Option (Option String) × Nat :=
  if h : seasons.length ≤ pos then (none, pos)
  else (some (seasons.get ⟨pos, Nat.lt_of_not_le h⟩), pos + 1)

/-- The inner `for j in range(2)` loop: two guarded iterations; a
`break` at `j = 0` skips the `j = 1` iteration. Returns the panels
plotted in this row and the final `pos`. -/
def panel_row (seasons : List (Option String)) (pos : Nat) :
    List (Option String) × Nat :=
  match panel_step seasons pos with
  | (none, p) => ([], p)
  | (some s0, p) =>
    match panel_step seasons p with
    | (none, p') => ([s0], p')
    | (some s1, p') => ([s0, s1], p')

/-- The outer `for i in range(2)` loop over `seasons =
df["season_name"].unique()`: the sequence of seasons actually plotted
into the 2-by-2 grid. -/
def season_panels (seasons : List (Option String)) : List (Option String) :=
  let r0 := panel_row seasons 0
  let r1 := panel_row seasons r0.2
  r0.1 ++ r1.1

/-! ## Concrete inputs used by counterexamples and witnesses -/

/-- A concrete raw row: 2011-01-01 05:00 (a Saturday, dayofweek 5),
season code 1 (Spring), weather code 1, 16 rentals. -/
def rawA : RawRow :=
  { datetime := ⟨2011, 1, 1, 5, 5⟩, season := 1, holiday := 0,
    workingday := 0, weather := 1, temp := 9, atemp := 10, humidity := 80,
    windspeed := 0, casual := 3, registered := 13, count := 16 }

/-- Row `rawA` with only the weather code changed to 2. -/
def rawB : RawRow := { rawA with weather := 2 }

/-- The loaded form of `rawA`. -/
def rowA : LoadedRow := load_row rawA

/-- A one-row loaded dataframe built from `rawA` through the loader. -/
def dfA : List LoadedRow := load_data [rawA]

/-- The `count` values of the single weather group of `dfA` after
filtering by year 2011 and season Spring. -/
def weatherValsA : List Int :=
  group_vals (df_filtered dfA [2011] [some "Spring"]) (fun r => r.weather) 1

/-! ## Claims -/

/-- Auxiliary: the `ci95` column formula `1.96 * (std / count**0.5)`
rewritten with a real square root in place of the `0.5` power. -/
theorem ci95_rpow_sqrt (s : Real) (n : Nat) :
    1.96 * (s / (n : Real) ^ ((0.5 : Real))) = 1.96 * s / Real.sqrt (n : Real) := by
  rw [show ((0.5 : Real)) = 1 / 2 by norm_num, ← Real.sqrt_eq_rpow, mul_div_assoc]

/-- C1: for every hour `h` with `0 ≤ h ≤ 23`, `get_period h` is one of
the four bucket names, assigned by the fixed boundaries `[0,6)` Night,
`[6,12)` Morning, `[12,18)` Afternoon, `[18,24)` Evening. -/
theorem C1_get_period_buckets (h : Int) (hlo : 0 ≤ h) (hhi : h ≤ 23) :
    get_period h ∈ ["Night", "Morning", "Afternoon", "Evening"] ∧
    (h < 6 → get_period h = "Night") ∧
    (6 ≤ h → h < 12 → get_period h = "Morning") ∧
    (12 ≤ h → h < 18 → get_period h = "Afternoon") ∧
    (18 ≤ h → get_period h = "Evening") := by
  refine ⟨?_, ?_, ?_, ?_, ?_⟩ <;>
    simp only [get_period] <;> split_ifs <;> simp_all <;> omega

/-- Witness for C1 at hour 7: the Morning case. -/
theorem C1_witness :
    (0 ≤ (7 : Int) ∧ (7 : Int) ≤ 23 ∧ 6 ≤ (7 : Int) ∧ (7 : Int) < 12) ∧
    get_period 7 = "Morning" :=
  ⟨by decide,
    (C1_get_period_buckets 7 (by decide) (by decide)).2.2.1 (by decide) (by decide)⟩

/-- C8: `get_period` is total on ℤ and the final `else` sends every
hour outside `[0,18)` — negative hours included — to Evening. -/
theorem C8_get_period_total (h : Int) :
    get_period h ∈ ["Night", "Morning", "Afternoon", "Evening"] ∧
    ((h < 0 ∨ 18 ≤ h) → get_period h = "Evening") := by
  constructor
  · simp only [get_period]; split_ifs <;> simp
  · intro hout
    simp only [get_period]
    split_ifs <;> simp_all <;> omega

/-- Witness for C8 at the out-of-range hour −5. -/
theorem C8_witness :
    ((-5 : Int) < 0 ∨ 18 ≤ (-5 : Int)) ∧ get_period (-5) = "Evening" :=
  ⟨Or.inl (by decide), (C8_get_period_total (-5)).2 (Or.inl (by decide))⟩

/-- C2 counterexample: the loader derives no weather-name column.
Two raw rows that differ only in the weather code (1 versus 2) load to
rows identical in every derived column — the only changed field is the
untouched numeric `weather` code itself — so no derived column is an
injective map of the weather codes onto name strings, contradicting
the claim's weather half. -/
theorem C2_counterexample :
    rawA.weather = 1 ∧ rawB.weather = 2 ∧
    load_row rawB = { load_row rawA with weather := 2 } ∧
    (load_row rawA).season_name = (load_row rawB).season_name ∧
    (load_row rawA).day_period = (load_row rawB).day_period ∧
    (load_row rawB).weather = rawB.weather := by
  decide

/-- C2 amended: only the season codes are mapped to names.
`season_name` is `season_map` of the season code; `season_map` sends
1,2,3,4 to the four pairwise-distinct names Spring, Summer, Fall,
Winter (hence injectively) and every other code to NaN (`none`);
the weather code is carried through unmapped. -/
theorem C2_season_map_only (r : RawRow) :
    ((load_row r).season_name = season_map r.season ∧
      (load_row r).weather = r.weather) ∧
    ([1, 2, 3, 4].map season_map
      = [some "Spring", some "Summer", some "Fall", some "Winter"]) ∧
    ([some "Spring", some "Summer", some "Fall", some "Winter"]
      : List (Option String)).Nodup ∧
    (∀ c : Int, ¬(c = 1 ∨ c = 2 ∨ c = 3 ∨ c = 4) → season_map c = none) := by
  refine ⟨⟨rfl, rfl⟩, by decide, by decide, ?_⟩
  intro c hc
  simp only [season_map]
  split_ifs <;> simp_all

/-- Witness for C2 amended: code 7 is outside 1–4 and gets no name. -/
theorem C2_witness :
    ¬((7 : Int) = 1 ∨ (7 : Int) = 2 ∨ (7 : Int) = 3 ∨ (7 : Int) = 4) ∧
    season_map 7 = none :=
  ⟨by decide, (C2_season_map_only rawA).2.2.2 7 (by decide)⟩

/-- C3 counterexample: the mask of source line 49 tests year and
season only — no hour predicate exists.  For the selection years
= \x7b2011\x7d, seasons = \x7bSpring\x7d and hour range 10–12, the filter keeps
`rowA`, whose hour is 5, outside the selected range, so the claim's
"hour within the selected hour range" fails on the code. -/
theorem C3_counterexample :
    df_filtered [rowA] [2011] [some "Spring"] = [rowA] ∧
    rowA.hour = 5 ∧ ¬((10 : Int) ≤ 5 ∧ (5 : Int) ≤ 12) := by
  decide

/-- C3 amended: filtering is by year and season only (the script has
no hour-range input).  Every kept row has a selected year and a
selected season name and comes from the dataset, and the kept rows
together with the rejected rows are a permutation of the original
dataset. -/
theorem C3_filter_partition (df : List LoadedRow) (ys : List Int)
    (ss : List (Option String)) :
    (∀ r ∈ df_filtered df ys ss, r.year ∈ ys ∧ r.season_name ∈ ss ∧ r ∈ df) ∧
    (df_filtered df ys ss ++ df_complement df ys ss).Perm df := by
  constructor
  · intro r hr
    have h := List.mem_filter.mp hr
    have hp := h.2
    simp only [filter_pred, Bool.and_eq_true, List.contains, List.elem_iff] at hp
    exact ⟨hp.1, hp.2, h.1⟩
  · exact List.filter_append_perm _ df

/-- Witness for C3 amended on the one-row dataframe `[rowA]` with its
year and season selected. -/
theorem C3_witness :
    rowA ∈ df_filtered [rowA] [2011] [some "Spring"] ∧
    (rowA.year ∈ [(2011 : Int)] ∧ rowA.season_name ∈ [some "Spring"] ∧
      rowA ∈ [rowA]) :=
  ⟨by decide,
    (C3_filter_partition [rowA] [2011] [some "Spring"]).1 rowA (by decide)⟩

/-- The spec's description of the single handled failure, formalised:
a missing input file ends the render attempt in a user-visible message
rather than an exception. -/
def spec_handles_missing_file : Prop :=
  ∃ msg, run_script none = RenderOutcome.message msg

/-- C4 counterexample: `pd.read_csv` on source line 14 is wrapped in
no `try`/`except`, so a missing `train.csv` propagates as an uncaught
`FileNotFoundError`; no user-visible message is produced. -/
theorem C4_counterexample :
    run_script none = RenderOutcome.uncaught PyError.fileNotFound ∧
    ¬spec_handles_missing_file := by
  refine ⟨rfl, ?_⟩
  rintro ⟨msg, hmsg⟩
  simp [run_script, read_csv] at hmsg

/-- C4 amended: the program handles no failure at all.  A missing
input CSV raises an uncaught error that terminates the page render —
with no user-visible message — and on a readable file the page renders
with the loaded dataframe; no render attempt ever ends in a message. -/
theorem C4_no_handled_failure (file : Option (List RawRow)) :
    run_script none = RenderOutcome.uncaught PyError.fileNotFound ∧
    (run_script file).isMessage = false ∧
    (∀ rows, run_script (some rows) = RenderOutcome.page (load_data rows)) := by
  refine ⟨rfl, ?_, fun rows => rfl⟩
  cases file <;> rfl

/-- C5 counterexample: the sidebar creates two filter widgets, not
three, and none of them is a slider — there is no hour-range input. -/
theorem C5_counterexample :
    sidebar_widgets.length = 2 ∧ sidebar_widgets.length ≠ 3 ∧
    sidebar_widgets.all (fun w => ! w.isSlider) = true := by
  decide

/-- C5 amended: the sidebar offers exactly two filter widgets — a
year multi-select and a season multi-select — and the filtering the
page applies is correspondingly by year and season membership only. -/
theorem C5_sidebar_widgets (df : List LoadedRow) (ys : List Int)
    (ss : List (Option String)) :
    sidebar_widgets
      = [Widget.multiselect "Select Year", Widget.multiselect "Select Season"] ∧
    sidebar_widgets.countP Widget.isSlider = 0 ∧
    df_filtered df ys ss
      = df.filter (fun r => ys.contains r.year && ss.contains r.season_name) :=
  ⟨rfl, by decide, rfl⟩

/-- C6 counterexample: deselecting every season empties the filtered
dataset — the same filter output as for an empty dataframe — yet the
2011 monthly chart still plots the mean of `dfA`'s one row, because
source line 113 aggregates the unfiltered `df`.  The chart's input is
therefore not the output of the Filter step: it aggregates a row the
current selection excludes. -/
theorem C6_counterexample :
    df_filtered dfA [2011] [] = df_filtered [] [2011] [] ∧
    chart_2011_data dfA [2011] [] = [(1, 16)] ∧
    chart_2011_data [] [2011] [] = [] ∧
    chart_2011_data dfA [2011] [] ≠ chart_2011_data [] [2011] [] := by
  have h2 : chart_2011_data dfA [2011] [] = [(1, 16)] := by
    norm_num [chart_2011_data, dfA, load_data, rawA, load_row, groupby_mean,
      group_keys, group_vals, mean_q]
  have h3 : chart_2011_data [] [2011] [] = [] := rfl
  exact ⟨by decide, h2, h3, by rw [h2, h3]; simp⟩

/-- C6 amended: the aggregate charts other than the 2011-vs-2012
monthly panels and the seasonal 2-by-2 panels take the Filter step's
output as input — their plotted data is a function of
`df_filtered df ys ss` alone — while the 2011/2012 panels and the
seasonal panels read the unfiltered dataframe and ignore the sidebar
selections entirely. -/
theorem C6_chart_inputs :
    (∀ df df' : List LoadedRow, ∀ ys ys' : List Int,
      ∀ ss ss' : List (Option String),
      df_filtered df ys ss = df_filtered df' ys' ss' →
      mean_working_data df ys ss = mean_working_data df' ys' ss' ∧
      month_mean_data df ys ss = month_mean_data df' ys' ss' ∧
      weather_stats_tab df ys ss = weather_stats_tab df' ys' ss' ∧
      hour_mean_data df ys ss = hour_mean_data df' ys' ss' ∧
      (∀ d, dayofweek_line_data df ys ss d = dayofweek_line_data df' ys' ss' d) ∧
      period_stats_tab df ys ss = period_stats_tab df' ys' ss') ∧
    (∀ df : List LoadedRow, ∀ ys : List Int, ∀ ss : List (Option String),
      chart_2011_data df ys ss = chart_2011_data df [] [] ∧
      chart_2012_data df ys ss = chart_2012_data df [] [] ∧
      ∀ s, season_panel_data df ys ss s = season_panel_data df [] [] s) := by
  constructor
  · intro df df' ys ys' ss ss' hf
    refine ⟨?_, ?_, ?_, ?_, fun d => ?_, ?_⟩ <;>
      simp only [mean_working_data, month_mean_data, weather_stats_tab,
        hour_mean_data, dayofweek_line_data, period_stats_tab, hf]
  · intro df ys ss
    exact ⟨rfl, rfl, fun s => rfl⟩

/-- Witness for C6 amended: with every season deselected the filtered
dataframe of `dfA` coincides with that of the empty dataframe, and
each filtered chart agrees accordingly. -/
theorem C6_witness :
    df_filtered dfA [2011] [] = df_filtered [] [] [] ∧
    (mean_working_data dfA [2011] [] = mean_working_data [] [] [] ∧
      month_mean_data dfA [2011] [] = month_mean_data [] [] [] ∧
      weather_stats_tab dfA [2011] [] = weather_stats_tab [] [] [] ∧
      hour_mean_data dfA [2011] [] = hour_mean_data [] [] [] ∧
      (∀ d, dayofweek_line_data dfA [2011] [] d = dayofweek_line_data [] [] [] d) ∧
      period_stats_tab dfA [2011] [] = period_stats_tab [] [] []) :=
  ⟨by decide, C6_chart_inputs.1 dfA [] [2011] [] [] [] (by decide)⟩

/-- C7: in both the weather table (source lines 134-135) and the
day-period table (source lines 212-213) built over the filtered rows,
every group's row carries the group's mean, its sample standard
deviation, its size, and a `ci95` entry equal to
`1.96 × (sample standard deviation / sqrt(sample size))`. -/
theorem C7_ci95_formula :
    (∀ df : List LoadedRow, ∀ ys : List Int, ∀ ss : List (Option String),
      ∀ k : Int,
      k ∈ group_keys (df_filtered df ys ss) (fun r => r.weather) →
      (k, mean_q (group_vals (df_filtered df ys ss) (fun r => r.weather) k),
        std_samp (group_vals (df_filtered df ys ss) (fun r => r.weather) k),
        (group_vals (df_filtered df ys ss) (fun r => r.weather) k).length,
        1.96 * std_samp (group_vals (df_filtered df ys ss) (fun r => r.weather) k)
          / Real.sqrt ((group_vals (df_filtered df ys ss) (fun r => r.weather) k).length))
        ∈ weather_stats_tab df ys ss) ∧
    (∀ df : List LoadedRow, ∀ ys : List Int, ∀ ss : List (Option String),
      ∀ p : String,
      p ∈ group_keys (df_filtered df ys ss) (fun r => r.day_period) →
      (p, mean_q (group_vals (df_filtered df ys ss) (fun r => r.day_period) p),
        std_samp (group_vals (df_filtered df ys ss) (fun r => r.day_period) p),
        (group_vals (df_filtered df ys ss) (fun r => r.day_period) p).length,
        1.96 * std_samp (group_vals (df_filtered df ys ss) (fun r => r.day_period) p)
          / Real.sqrt ((group_vals (df_filtered df ys ss) (fun r => r.day_period) p).length))
        ∈ period_stats_tab df ys ss) := by
  constructor
  · intro df ys ss k hk
    simp only [weather_stats_tab, add_ci95, agg_mean_std_count, List.map_map]
    refine List.mem_map.mpr ⟨k, hk, ?_⟩
    simp only [Function.comp_apply]
    rw [ci95_rpow_sqrt]
  · intro df ys ss p hp
    simp only [period_stats_tab, add_ci95, agg_mean_std_count, List.map_map]
    refine List.mem_map.mpr ⟨p, hp, ?_⟩
    simp only [Function.comp_apply]
    rw [ci95_rpow_sqrt]

/-- Witness for C7 on the one-row dataframe `dfA` with its year and
season selected: the single weather group (code 1) appears in the
weather table with the stated `ci95` value. -/
theorem C7_witness :
    (1 : Int) ∈ group_keys (df_filtered dfA [2011] [some "Spring"])
      (fun r => r.weather) ∧
    ((1 : Int), mean_q weatherValsA, std_samp weatherValsA,
      weatherValsA.length,
      1.96 * std_samp weatherValsA / Real.sqrt (weatherValsA.length))
      ∈ weather_stats_tab dfA [2011] [some "Spring"] :=
  ⟨by decide, C7_ci95_formula.1 dfA [2011] [some "Spring"] 1 (by decide)⟩

/-- C9: `load_data` only adds columns.  The loaded dataframe has
exactly the rows of the file in order (position `i` of the output is
the loaded form of position `i` of the input, so none is dropped or
added), every original column other than `datetime` is unchanged, and
each of the seven derived columns is the stated pure function of the
row's existing columns. -/
theorem C9_load_data_only_adds_columns (df : List RawRow) (i : Nat) (r : RawRow) :
    (load_data df).length = df.length ∧
    (load_data df)[i]? = df[i]?.map load_row ∧
    ((load_row r).season = r.season ∧ (load_row r).holiday = r.holiday ∧
      (load_row r).workingday = r.workingday ∧ (load_row r).weather = r.weather ∧
      (load_row r).temp = r.temp ∧ (load_row r).atemp = r.atemp ∧
      (load_row r).humidity = r.humidity ∧ (load_row r).windspeed = r.windspeed ∧
      (load_row r).casual = r.casual ∧ (load_row r).registered = r.registered ∧
      (load_row r).count = r.count) ∧
    ((load_row r).year = r.datetime.year ∧ (load_row r).month = r.datetime.month ∧
      (load_row r).day = r.datetime.day ∧ (load_row r).hour = r.datetime.hour ∧
      (load_row r).dayofweek = r.datetime.dayofweek ∧
      (load_row r).season_name = season_map r.season ∧
      (load_row r).day_period = get_period r.datetime.hour) := by
  refine ⟨?_, ?_, ?_, ?_⟩
  · simp [load_data]
  · simp [load_data]
  · exact ⟨rfl, rfl, rfl, rfl, rfl, rfl, rfl, rfl, rfl, rfl, rfl⟩
  · exact ⟨rfl, rfl, rfl, rfl, rfl, rfl, rfl⟩

/-- C10: the seasonal 2-by-2 panel loop plots exactly
`min (number of distinct seasons) 4` panels — the first four seasons
in order — and, since every read of `seasons[pos]` in the embedding
happens under the guard `pos ≥ len → break` and carries the resulting
in-bounds proof, the loop never indexes past the end of the list. -/
theorem C10_season_panels_min (seasons : List (Option String)) :
    season_panels seasons = seasons.take 4 ∧
    (season_panels seasons).length = min seasons.length 4 := by
  have h : season_panels seasons = seasons.take 4 := by
    rcases seasons with _ | ⟨a, _ | ⟨b, _ | ⟨c, _ | ⟨d, rest⟩⟩⟩⟩
    · rfl
    · rfl
    · rfl
    · rfl
    · have h0 : panel_step (a :: b :: c :: d :: rest) 0 = (some a, 1) := by
        unfold panel_step
        rw [dif_neg (by simp)]
        rfl
      have h1 : panel_step (a :: b :: c :: d :: rest) 1 = (some b, 2) := by
        unfold panel_step
        rw [dif_neg (by simp)]
        rfl
      have h2 : panel_step (a :: b :: c :: d :: rest) 2 = (some c, 3) := by
        unfold panel_step
        rw [dif_neg (by simp)]
        rfl
      have h3 : panel_step (a :: b :: c :: d :: rest) 3 = (some d, 4) := by
        unfold panel_step
        rw [dif_neg (by simp)]
        rfl
      simp [season_panels, panel_row, h0, h1, h2, h3]
  refine ⟨h, ?_⟩
  rw [h, List.length_take, Nat.min_comm]

end BikeRental
